import Mathlib

/-!
Shallow embedding of the libredesk conversation pipeline and automation
engine (package `internal/conversation` and `internal/automation`), with
theorems checking the natural-language specification against it.

External collaborators (SQL store, media store, template renderer, inbox
transports, contact store) are modelled as explicit state or as function
parameters; machinery out of scope for the checked claims (logging,
websocket broadcast, participants) is noted in doc comments where elided.
-/

set_option linter.unusedVariables false

namespace Libredesk

/-! ### Constants from internal/conversation -/

def MessageIncoming : String := "incoming"
def MessageOutgoing : String := "outgoing"
def MessageActivity : String := "activity"

def MessageStatusPending : String := "pending"
def MessageStatusSent : String := "sent"
def MessageStatusDelivered : String := "delivered"
def MessageStatusRead : String := "read"
def MessageStatusFailed : String := "failed"
def MessageStatusReceived : String := "received"

/-- Channel identifier for the email transport (inbox.ChannelEmail). -/
def ChannelEmail : String := "email"

def maxLastMessageLen : Nat := 45

def maxMessagesPerPage : Int := 30

/-- MaxQueueSize from internal/automation: maximum size of the task queues. -/
def MaxQueueSize : Nat := 5000

/-! ### Data model -/

/-- A message row.  `sourceID` models the sql.NullString source id, with the
empty string standing for SQL NULL.  Timestamps are abstract ticks. -/
structure Message where
  id : Nat
  uuid : String
  typ : String
  status : String
  conversationID : Nat
  conversationUUID : String
  content : String
  subject : String
  senderID : Nat
  senderType : String
  isPrivate : Bool
  contentType : String
  sourceID : String
  inboxID : Nat
  meta : String
  inReplyTo : String
  references : List String
  fromAddr : String
  toAddr : List String
  attachments : List String
  createdAt : Nat
  deriving Repr, DecidableEq

/-- A conversation row.  The JSON meta map seeded at creation (subject,
last_message, last_message_at) is modelled as the three explicit fields. -/
structure Conversation where
  id : Nat
  uuid : String
  contactID : Nat
  inboxID : Nat
  subject : String
  lastMessage : String
  lastMessageAt : Nat
  firstReplyAt : Option Nat
  deriving Repr, DecidableEq

structure Contact where
  email : String
  deriving Repr, DecidableEq

/-- models.IncomingMessage: an incoming message bundled with its contact and
destination inbox. -/
structure IncomingMessage where
  contact : Contact
  message : Message
  inboxID : Nat
  deriving Repr, DecidableEq

/-- The relational store reachable through the SQL queries.  `now` is the
clock the DB stamps created_at / meta timestamps with. -/
structure Store where
  messages : List Message
  conversations : List Conversation
  nextMessageID : Nat
  nextConversationID : Nat
  now : Nat
  deriving Repr, DecidableEq

inductive ConvError where
  | conversationNotFound
  deriving Repr, DecidableEq

instance {ε α : Type} [DecidableEq ε] [DecidableEq α] : DecidableEq (Except ε α) := fun x y =>
  match x, y with
  | .ok a, .ok b =>
    if h : a = b then .isTrue (by rw [h]) else .isFalse (by intro he; cases he; exact h rfl)
  | .error a, .error b =>
    if h : a = b then .isTrue (by rw [h]) else .isFalse (by intro he; cases he; exact h rfl)
  | .ok _, .error _ => .isFalse (fun he => Except.noConfusion he)
  | .error _, .ok _ => .isFalse (fun he => Except.noConfusion he)

/-- Modelled from the spec: `stringutil.SanitizeAndTruncate` is not under
src/.  The spec describes the conversation summary as sanitized message
content truncated to at most `maxLen` characters; the sanitizer itself is an
external parameter. -/
def SanitizeAndTruncate (sanitize : String → String) (s : String) (maxLen : Nat) : String :=
  String.mk ((sanitize s).data.take maxLen)

/-! ### Store operations (embedding the SQL queries used by the pipeline) -/

/-- Embeds `findConversationID`.  The message-exists-by-source-id SQL is
modelled from the spec: look up an existing conversation by the message
source ids.  An empty `sourceID` models SQL NULL and never matches. -/
def findConversationID (st : Store) (messageSourceIDs : List String) : Except ConvError Nat :=
  if messageSourceIDs.length = 0 then .error .conversationNotFound
  else
    match st.messages.find? (fun m => m.sourceID ≠ "" && messageSourceIDs.contains m.sourceID) with
    | some m => .ok m.conversationID
    | none => .error .conversationNotFound

/-- Embeds `GetConversationUUID` (fetch a conversation's UUID by id). -/
def GetConversationUUID (st : Store) (conversationID : Nat) : Except ConvError String :=
  match st.conversations.find? (fun c => c.id = conversationID) with
  | some c => .ok c.uuid
  | none => .error .conversationNotFound

/-- Embeds `CreateConversation`; the insert SQL is modelled from the spec.
The DB assigns the id and UUID and stamps the seeded meta's timestamp with
the current clock. -/
def CreateConversation (st : Store) (contactID inboxID : Nat) (subject lastMessage : String) :
    Nat × String × Store :=
  let cid := st.nextConversationID
  let cuuid := "conv-" ++ toString cid
  let conv : Conversation :=
    { id := cid, uuid := cuuid, contactID := contactID, inboxID := inboxID,
      subject := subject, lastMessage := lastMessage, lastMessageAt := st.now,
      firstReplyAt := none }
  (cid, cuuid,
    { st with conversations := st.conversations ++ [conv], nextConversationID := cid + 1 })

/-- Embeds `UpdateMessageStatus` (the update-message-status SQL sets the
status of the message with the given UUID).  The broadcast of the property
update goes to the external hub and is not modelled. -/
def UpdateMessageStatus (st : Store) (uuid status : String) : Store :=
  { st with
    messages := st.messages.map (fun m => if m.uuid = uuid then { m with status := status } else m) }

/-- Embeds `MarkMessageAsPending`: reset a message status to pending so an
outgoing message can be picked up again by a worker. -/
def MarkMessageAsPending (st : Store) (uuid : String) : Store :=
  UpdateMessageStatus st uuid MessageStatusPending

/-- Embeds `UpdateConversationLastMessage` (conversation meta update with
the last message details). -/
def UpdateConversationLastMessage (st : Store) (conversationUUID trimmedMessage : String)
    (lastMessageAt : Nat) : Store :=
  { st with
    conversations := st.conversations.map (fun c =>
      if c.uuid = conversationUUID then
        { c with lastMessage := trimmedMessage, lastMessageAt := lastMessageAt }
      else c) }

/-- Embeds `UpdateConversationFirstReplyAt`: stamps the first-reply
timestamp, set once per the spec. -/
def UpdateConversationFirstReplyAt (st : Store) (conversationUUID : String) (t : Nat) : Store :=
  { st with
    conversations := st.conversations.map (fun c =>
      if c.uuid = conversationUUID && c.firstReplyAt.isNone then
        { c with firstReplyAt := some t }
      else c) }

/-- Embeds `InsertMessage`.  A private message is always stored as sent; the
DB assigns id, UUID and created_at; afterwards the conversation meta is
updated with the sanitized-and-truncated last message details.  Media
attach, participant insertion and the broadcast act on external
collaborators and are not modelled. -/
def InsertMessage (sanitize : String → String) (st : Store) (message : Message) :
    Store × Message :=
  let message := if message.isPrivate then { message with status := MessageStatusSent } else message
  let message := if message.meta = "" then { message with meta := "\x7b\x7d" } else message
  let message :=
    { message with
      id := st.nextMessageID, uuid := "msg-" ++ toString st.nextMessageID, createdAt := st.now }
  let st := { st with messages := st.messages ++ [message], nextMessageID := st.nextMessageID + 1 }
  let trimmedMessage := SanitizeAndTruncate sanitize message.content 45
  let st := UpdateConversationLastMessage st message.conversationUUID trimmedMessage message.createdAt
  (st, message)

/-! ### Find-or-create conversation and incoming processing -/

/-- Embeds `findOrCreateConversation`.  The thread-resolution chain is the
message's References list plus the in-reply-to id when non-empty; when no
conversation matches, a new one is created with seeded meta (subject,
sanitized-and-truncated last message, timestamp), and the message's
conversation id and UUID are set to the resulting conversation. -/
def findOrCreateConversation (sanitize : String → String) (st : Store) (msg : Message)
    (inboxID contactID : Nat) : Except ConvError (Bool × Message × Store) :=
  let sourceIDs := msg.references
  let sourceIDs := if msg.inReplyTo ≠ "" then sourceIDs ++ [msg.inReplyTo] else sourceIDs
  let conversationID :=
    match findConversationID st sourceIDs with
    | .ok cid => cid
    | .error _ => 0
  if conversationID = 0 then
    let lastMessage := SanitizeAndTruncate sanitize msg.content maxLastMessageLen
    match CreateConversation st contactID inboxID msg.subject lastMessage with
    | (cid, cuuid, st) =>
      .ok (true, { msg with conversationID := cid, conversationUUID := cuuid }, st)
  else
    match GetConversationUUID st conversationID with
    | .error e => .error e
    | .ok cuuid =>
      .ok (false, { msg with conversationID := conversationID, conversationUUID := cuuid }, st)

/-- Transport capability of an inbox: channel identifier and from-address.
The Send outcome is supplied by the environment. -/
structure Inbox where
  channel : String
  fromAddress : String
  deriving Repr, DecidableEq

/-- External collaborators of the pipeline: the inbox registry, the template
renderer (none = render error), the contact store upsert (none = error),
the media store blob fetch (attachment names; error aborts attach), address
resolution helpers, and the channel Send outcome. -/
structure Env where
  inboxes : Nat → Option Inbox
  render : String → Option String
  upsertContact : Contact → Option Nat
  getAttachments : Nat → Except String (List String)
  getToAddress : Nat → List String
  getLatestReceivedMessageSourceID : Nat → String
  sendOk : Message → Bool

/-- Conversation Manager state: the store, the two bounded queues with
their capacities, the in-flight (outgoing-processing) id set, the closed
flag, and the automation engine's bounded new-conversation trigger queue. -/
structure Manager where
  store : Store
  incomingMessageQueue : List IncomingMessage
  incomingCap : Nat
  outgoingMessageQueue : List Message
  outgoingCap : Nat
  outgoingProcessingMessages : List Nat
  closed : Bool
  automationNewConversationQ : List String
  deriving Repr, DecidableEq

inductive ProcError where
  | contactUpsert
  | conv (e : ConvError)
  deriving Repr, DecidableEq

/-- Embeds `Engine.EvaluateNewConversationRules` as seen from the pipeline:
a non-blocking enqueue onto the automation new-conversation queue, dropped
with a warning when the queue is saturated (the engine's own closed flag is
not threaded through here). -/
def EvaluateNewConversationRules (m : Manager) (conversationUUID : String) : Manager :=
  if m.automationNewConversationQ.length < MaxQueueSize then
    { m with automationNewConversationQ := m.automationNewConversationQ ++ [conversationUUID] }
  else m

/-- Embeds `processIncomingMessage`: upsert the contact, discard silently if
a conversation already matches the message's own source id, otherwise
find-or-create the conversation, insert the message, and fire the
new-conversation automation trigger when a conversation was created.
Attachment upload is best-effort against the external media store and is
not modelled. -/
def processIncomingMessage (env : Env) (sanitize : String → String) (m : Manager)
    (inMsg : IncomingMessage) : Manager × Except ProcError Unit :=
  match env.upsertContact inMsg.contact with
  | none => (m, .error .contactUpsert)
  | some senderID =>
    let msg := { inMsg.message with senderID := senderID }
    let conversationID :=
      match findConversationID m.store [msg.sourceID] with
      | .ok cid => cid
      | .error _ => 0
    if conversationID > 0 then (m, .ok ())
    else
      match findOrCreateConversation sanitize m.store msg inMsg.inboxID senderID with
      | .error e => (m, .error (.conv e))
      | .ok (isNewConversation, msg, st) =>
        let (st, msg) := InsertMessage sanitize st msg
        let m := { m with store := st }
        let m := if isNewConversation then EvaluateNewConversationRules m msg.conversationUUID else m
        (m, .ok ())

inductive EnqueueError where
  | queueClosed
  | queueFull
  deriving Repr, DecidableEq

/-- Embeds `EnqueueIncoming`: fails once the manager is closed; otherwise a
non-blocking bounded enqueue that fails when the incoming queue has no free
capacity. -/
def EnqueueIncoming (m : Manager) (message : IncomingMessage) :
    Manager × Except EnqueueError Unit :=
  if m.closed then (m, .error .queueClosed)
  else if m.incomingMessageQueue.length < m.incomingCap then
    ({ m with incomingMessageQueue := m.incomingMessageQueue ++ [message] }, .ok ())
  else (m, .error .queueFull)

/-- Embeds `Close` on the Manager: marks the queues closed (draining of
workers is a liveness concern not modelled). -/
def Close (m : Manager) : Manager := { m with closed := true }

/-! ### Outgoing scan and dispatch -/

inductive RenderError where
  | renderFailed
  | unknownChannel (channel : String)
  deriving Repr, DecidableEq

/-- Embeds `RenderContentInTemplate`.  Go passes `message` by value, so the
assignment of the rendered output to message.Content inside lands on the
callee's local copy, which is dropped at return: only the error and the
failed-status update escape the function. -/
def RenderContentInTemplate (env : Env) (st : Store) (inb : Inbox) (message : Message) :
    Store × Except RenderError Unit :=
  if inb.channel = ChannelEmail then
    match env.render message.content with
    | some rendered =>
      let _messageCopy := { message with content := rendered }
      (st, .ok ())
    | none => (UpdateMessageStatus st message.uuid MessageStatusFailed, .error .renderFailed)
  else (UpdateMessageStatus st message.uuid MessageStatusFailed,
        .error (.unknownChannel inb.channel))

/-- Modelled from the spec: the get-pending-messages SQL is not under src/.
The spec says the scanner queries storage for outgoing messages in pending
status, excluding ids currently in the in-flight set. -/
def scanCandidates (m : Manager) : List Message :=
  m.store.messages.filter (fun msg =>
    msg.typ = MessageOutgoing && msg.status = MessageStatusPending &&
      !(m.outgoingProcessingMessages.contains msg.id))

/-- Outcome of one scan tick: either the whole candidate list was walked, or
the scanner goroutine is suspended in a blocking channel send (queue full)
with the message in hand and the rest of the candidates unscanned. -/
inductive ScanOutcome where
  | done (m : Manager)
  | blocked (m : Manager) (message : Message) (rest : List Message)
  deriving Repr, DecidableEq

/-- Embeds the scan loop body of `ListenAndDispatchMessages` over one tick's
candidate list: skip a message on inbox-fetch or render failure, otherwise
store its id in the in-flight map and push it onto the outgoing queue with
a blocking channel send (modelled by the `blocked` outcome when the bounded
queue is full). -/
def scanStep (env : Env) (m : Manager) : List Message → ScanOutcome
  | [] => .done m
  | message :: rest =>
    match env.inboxes message.inboxID with
    | none => scanStep env m rest
    | some inb =>
      match RenderContentInTemplate env m.store inb message with
      | (st, .error _) => scanStep env { m with store := st } rest
      | (st, .ok ()) =>
        let m := { m with
                   store := st
                   outgoingProcessingMessages := m.outgoingProcessingMessages ++ [message.id] }
        if m.outgoingMessageQueue.length < m.outgoingCap then
          scanStep env { m with outgoingMessageQueue := m.outgoingMessageQueue ++ [message] } rest
        else
          .blocked m message rest

/-- One scan tick: walk the tick's candidate set. -/
def scanTick (env : Env) (m : Manager) : ScanOutcome :=
  scanStep env m (scanCandidates m)

/-- The message enriched by the dispatch worker before Send: attachment
blobs, from/to addresses and the email threading header. -/
def dispatchEnriched (env : Env) (inb : Inbox) (atts : List String) (message : Message) :
    Message :=
  { message with
    attachments := atts,
    fromAddr := inb.fromAddress,
    toAddr := env.getToAddress message.conversationID,
    inReplyTo := env.getLatestReceivedMessageSourceID message.conversationID }

/-- Result of one dispatch-worker iteration: the new manager state and the
exact message value handed to the channel's Send (none when Send was never
reached). -/
structure DispatchResult where
  manager : Manager
  sent : Option Message

/-- Embeds one iteration of `MessageDispatchWorker` on a message taken from
the outgoing queue: inbox fetch and attachment fetch failures delete the
in-flight entry and mark the message failed; otherwise the enriched message
is handed to Send, the status becomes sent or failed accordingly, the
conversation first-reply timestamp is stamped on success, and the in-flight
entry is deleted. -/
def MessageDispatchWorkerStep (env : Env) (m : Manager) (message : Message) : DispatchResult :=
  match env.inboxes message.inboxID with
  | none =>
    let m := { m with
      outgoingProcessingMessages := m.outgoingProcessingMessages.filter (· ≠ message.id) }
    { manager := { m with store := UpdateMessageStatus m.store message.uuid MessageStatusFailed },
      sent := none }
  | some inb =>
    match env.getAttachments message.id with
    | .error _ =>
      let m := { m with
        outgoingProcessingMessages := m.outgoingProcessingMessages.filter (· ≠ message.id) }
      { manager := { m with store := UpdateMessageStatus m.store message.uuid MessageStatusFailed },
        sent := none }
    | .ok atts =>
      let message := dispatchEnriched env inb atts message
      let newStatus := if env.sendOk message then MessageStatusSent else MessageStatusFailed
      let st := UpdateMessageStatus m.store message.uuid newStatus
      let st :=
        if newStatus = MessageStatusSent then
          UpdateConversationFirstReplyAt st message.conversationUUID message.createdAt
        else st
      { manager := { m with
          store := st
          outgoingProcessingMessages := m.outgoingProcessingMessages.filter (· ≠ message.id) }
        sent := some message }

/-! ### Pagination -/

/-- Embeds `generateMessagesQuery`: clamp page and pageSize, compute the
offset, and append LIMIT and OFFSET to the query arguments.  Returns the
extended argument list together with the LIMIT and OFFSET values. -/
def generateMessagesQuery (qArgs : List Int) (page pageSize : Int) :
    List Int × Int × Int :=
  let page := if page ≤ 0 then 1 else page
  let pageSize := if pageSize ≤ 0 || pageSize > maxMessagesPerPage then maxMessagesPerPage
    else pageSize
  let offset := (page - 1) * pageSize
  (qArgs ++ [pageSize, offset], pageSize, offset)

/-- Embeds `GetConversationMessages`; the get-messages SQL is modelled from
the spec: fetch the conversation's messages with the LIMIT and OFFSET
produced by `generateMessagesQuery`. -/
def GetConversationMessages (st : Store) (conversationUUID : String) (page pageSize : Int) :
    List Message :=
  let r := generateMessagesQuery [] page pageSize
  (((st.messages.filter (fun m => m.conversationUUID = conversationUUID)).drop
      r.2.2.toNat).take r.2.1.toNat)

/-! ### Automation engine (internal/automation) -/

/-- models.Rule: one predicate+action entry, tagged with the owning record's
type when loaded; the predicate/action payload is opaque here. -/
structure Rule where
  typ : String
  payload : String
  deriving Repr, DecidableEq

/-- models.RuleRecord: a stored rule record whose serialized rules unmarshal
to a batch of `Rule` (JSON parsing is external and modelled as the already
parsed list). -/
structure RuleRecord where
  id : Nat
  name : String
  description : String
  typ : String
  rules : List Rule
  enabled : Bool
  deriving Repr, DecidableEq

/-- The automation Engine's in-memory rule snapshot (the rules slice guarded
by rulesMu; locking is not modelled in this sequential embedding). -/
structure Engine where
  rules : List Rule
  deriving Repr, DecidableEq

/-- Embeds `queryRules`; the get-enabled-rules SQL is modelled from the
spec: fetch enabled rule records, unmarshal each batch and tag every rule
in a batch with the record's type. -/
def queryRules (db : List RuleRecord) : List Rule :=
  (db.filter (fun r => r.enabled)).flatMap (fun r =>
    r.rules.map (fun b => { b with typ := r.typ }))

/-- Embeds `ReloadRules`: replace the in-memory snapshot with a fresh query
of the enabled rules. -/
def ReloadRules (db : List RuleRecord) (e : Engine) : Engine :=
  { e with rules := queryRules db }

/-- Modelled from the spec: the toggle-rule SQL is not under src/; the spec
says ToggleRule toggles the active status of the rule with the given id. -/
def toggleRuleDB (db : List RuleRecord) (id : Nat) : List RuleRecord :=
  db.map (fun r => if r.id = id then { r with enabled := !r.enabled } else r)

/-- Modelled from the spec: the insert-rule SQL appends the new record. -/
def insertRuleDB (db : List RuleRecord) (rec : RuleRecord) : List RuleRecord :=
  db ++ [rec]

/-- Modelled from the spec: the update-rule SQL replaces name, description,
type and rules of the record with the given id. -/
def updateRuleDB (db : List RuleRecord) (id : Nat) (rec : RuleRecord) : List RuleRecord :=
  db.map (fun r =>
    if r.id = id then
      { r with
        name := rec.name
        description := rec.description
        typ := rec.typ
        rules := rec.rules }
    else r)

/-- Modelled from the spec: the delete-rule SQL removes the record with the
given id. -/
def deleteRuleDB (db : List RuleRecord) (id : Nat) : List RuleRecord :=
  db.filter (fun r => r.id ≠ id)

/-- Embeds `ToggleRule`: toggle in storage, then reload the snapshot. -/
def ToggleRule (db : List RuleRecord) (e : Engine) (id : Nat) : List RuleRecord × Engine :=
  let db := toggleRuleDB db id
  (db, ReloadRules db e)

/-- Embeds `CreateRule`: insert in storage, then reload the snapshot. -/
def CreateRule (db : List RuleRecord) (e : Engine) (rec : RuleRecord) :
    List RuleRecord × Engine :=
  let db := insertRuleDB db rec
  (db, ReloadRules db e)

/-- Embeds `UpdateRule`: update in storage, then reload the snapshot. -/
def UpdateRule (db : List RuleRecord) (e : Engine) (id : Nat) (rec : RuleRecord) :
    List RuleRecord × Engine :=
  let db := updateRuleDB db id rec
  (db, ReloadRules db e)

/-- Embeds `DeleteRule`: delete in storage, then reload the snapshot. -/
def DeleteRule (db : List RuleRecord) (e : Engine) (id : Nat) : List RuleRecord × Engine :=
  let db := deleteRuleDB db id
  (db, ReloadRules db e)

/-- Embeds `filterRulesByType`: the rules of the snapshot with the given
type, as used by the event handlers on each triggered event. -/
def filterRulesByType (e : Engine) (ruleType : String) : List Rule :=
  e.rules.filter (fun r => r.typ = ruleType)

/-! ### Concrete fixtures for witnesses and counterexamples -/

/-- A default message value for building concrete test inputs. -/
def baseMessage : Message :=
  { id := 0, uuid := "", typ := MessageOutgoing, status := MessageStatusPending,
    conversationID := 0, conversationUUID := "", content := "", subject := "",
    senderID := 0, senderType := "", isPrivate := false, contentType := "",
    sourceID := "", inboxID := 0, meta := "", inReplyTo := "", references := [],
    fromAddr := "", toAddr := [], attachments := [], createdAt := 0 }

def emptyStore : Store :=
  { messages := [], conversations := [], nextMessageID := 1, nextConversationID := 1, now := 0 }

def baseManager : Manager :=
  { store := emptyStore, incomingMessageQueue := [], incomingCap := MaxQueueSize,
    outgoingMessageQueue := [], outgoingCap := MaxQueueSize,
    outgoingProcessingMessages := [], closed := false, automationNewConversationQ := [] }

def stdInbox : Inbox := { channel := ChannelEmail, fromAddress := "support" }

/-- A benign environment: every inbox resolves, rendering is the identity,
sends succeed. -/
def stdEnv : Env :=
  { inboxes := fun _ => some stdInbox, render := fun c => some c,
    upsertContact := fun _ => some 1, getAttachments := fun _ => .ok [],
    getToAddress := fun _ => ["contact"], getLatestReceivedMessageSourceID := fun _ => "",
    sendOk := fun _ => true }

/-! ### C6: EnqueueIncoming error behaviour -/

/-- C6: EnqueueIncoming fails with a queue-closed error for every call after
Close, fails with a queue-full error when the bounded incoming queue has no
free capacity (without blocking and without growing the queue), and
otherwise appends the message and returns nil, never exceeding the bound. -/
theorem c6_enqueue_incoming (m : Manager) (msg : IncomingMessage) :
    (EnqueueIncoming (Close m) msg = (Close m, .error .queueClosed)) ∧
    (m.closed = false → m.incomingCap ≤ m.incomingMessageQueue.length →
      EnqueueIncoming m msg = (m, .error .queueFull)) ∧
    (m.closed = false → m.incomingMessageQueue.length < m.incomingCap →
      EnqueueIncoming m msg =
        ({ m with incomingMessageQueue := m.incomingMessageQueue ++ [msg] }, .ok ()) ∧
      (m.incomingMessageQueue ++ [msg]).length ≤ m.incomingCap) := by
  refine ⟨?_, ?_, ?_⟩
  · simp [EnqueueIncoming, Close]
  · intro hc hf
    simp [EnqueueIncoming, hc]
    omega
  · intro hc hlt
    constructor
    · simp [EnqueueIncoming, hc, hlt]
    · simp
      omega

/-- Witness for C6 at concrete managers: a closed manager rejects with
queueClosed, a zero-capacity manager rejects with queueFull, and a
one-capacity manager accepts. -/
theorem c6_enqueue_incoming_witness :
    (EnqueueIncoming (Close baseManager) ⟨⟨"a"⟩, baseMessage, 1⟩ =
      (Close baseManager, .error .queueClosed)) ∧
    (EnqueueIncoming { baseManager with incomingCap := 0 } ⟨⟨"a"⟩, baseMessage, 1⟩ =
      ({ baseManager with incomingCap := 0 }, .error .queueFull)) ∧
    (EnqueueIncoming { baseManager with incomingCap := 1 } ⟨⟨"a"⟩, baseMessage, 1⟩ =
      ({ baseManager with
          incomingCap := 1
          incomingMessageQueue := [⟨⟨"a"⟩, baseMessage, 1⟩] }, .ok ())) := by
  refine ⟨(c6_enqueue_incoming baseManager _).1, ?_, ?_⟩
  · exact (c6_enqueue_incoming { baseManager with incomingCap := 0 } _).2.1 (by decide)
      (by decide)
  · exact ((c6_enqueue_incoming { baseManager with incomingCap := 1 } _).2.2 (by decide)
      (by decide)).1

/-! ### C10: pagination clamping -/

/-- C10: generateMessagesQuery clamps pagination: a page at most 0 becomes
1, a pageSize at most 0 or above 30 becomes 30, the offset equals
(clamped page - 1) * clamped pageSize, and a single call of
GetConversationMessages never returns more than 30 messages. -/
theorem c10_pagination_clamped (st : Store) (uuid : String) (page pageSize : Int) :
    (generateMessagesQuery [] page pageSize).2.1 =
      (if pageSize ≤ 0 ∨ pageSize > 30 then 30 else pageSize) ∧
    (generateMessagesQuery [] page pageSize).2.2 =
      ((if page ≤ 0 then 1 else page) - 1) *
        (if pageSize ≤ 0 ∨ pageSize > 30 then 30 else pageSize) ∧
    (generateMessagesQuery [] page pageSize).2.1 ≤ 30 ∧
    (GetConversationMessages st uuid page pageSize).length ≤ 30 := by
  have hsize : (generateMessagesQuery [] page pageSize).2.1 =
      (if pageSize ≤ 0 ∨ pageSize > 30 then 30 else pageSize) := by
    simp [generateMessagesQuery, maxMessagesPerPage]
  have hbound : (generateMessagesQuery [] page pageSize).2.1 ≤ 30 := by
    rw [hsize]
    split
    · omega
    · rename_i h
      omega
  refine ⟨hsize, ?_, hbound, ?_⟩
  · simp [generateMessagesQuery, maxMessagesPerPage]
  · calc (GetConversationMessages st uuid page pageSize).length
        ≤ (generateMessagesQuery [] page pageSize).2.1.toNat := by
          simp [GetConversationMessages]
      _ ≤ 30 := by omega

/-! ### C9: private messages are stored as sent -/

/-- C9: InsertMessage overwrites the status of a private message to sent
before insertion, whatever status the caller supplied, so a private message
is never stored as pending and is never a candidate of the outgoing
dispatch scan. -/
theorem c9_private_message_stored_sent (sanitize : String → String) (st : Store)
    (message : Message) (hpriv : message.isPrivate = true) :
    (InsertMessage sanitize st message).2.status = MessageStatusSent ∧
    (InsertMessage sanitize st message).2.status ≠ MessageStatusPending ∧
    (InsertMessage sanitize st message).2 ∈ (InsertMessage sanitize st message).1.messages ∧
    ∀ mgr : Manager, (InsertMessage sanitize st message).2 ∉ scanCandidates mgr := by
  have hstatus : (InsertMessage sanitize st message).2.status = MessageStatusSent := by
    simp only [InsertMessage, hpriv, if_true]
    split <;> rfl
  refine ⟨hstatus, ?_, ?_, ?_⟩
  · rw [hstatus]
    decide
  · simp only [InsertMessage, UpdateConversationLastMessage]
    split <;> simp
  · intro mgr hmem
    rw [scanCandidates, List.mem_filter] at hmem
    have := hmem.2
    rw [hstatus] at this
    simp [MessageStatusSent, MessageStatusPending] at this

/-- Witness for C9: a concrete private message supplied with pending status
is stored as sent and is not a scan candidate even in a manager holding the
resulting store. -/
theorem c9_private_message_stored_sent_witness :
    (InsertMessage (fun s => s) emptyStore { baseMessage with isPrivate := true }).2.status =
      MessageStatusSent ∧
    (InsertMessage (fun s => s) emptyStore { baseMessage with isPrivate := true }).2 ∉
      scanCandidates { baseManager with
        store := (InsertMessage (fun s => s) emptyStore { baseMessage with isPrivate := true }).1 } := by
  have h := c9_private_message_stored_sent (fun s => s) emptyStore
    { baseMessage with isPrivate := true } (by decide)
  exact ⟨h.1, h.2.2.2 _⟩

/-! ### C7: rule mutations reload the snapshot -/

/-- C7: every create, update, delete or toggle on rule storage reloads the
in-memory snapshot from storage, and a rule whose only enabled carrier was
disabled via ToggleRule is absent from filterRulesByType for the very next
triggered event. -/
theorem c7_rule_mutations_reload (db : List RuleRecord) (e : Engine) (id idU idD : Nat)
    (rec recU : RuleRecord) (t p : String) :
    (ToggleRule db e id).2.rules = queryRules (ToggleRule db e id).1 ∧
    (CreateRule db e rec).2.rules = queryRules (CreateRule db e rec).1 ∧
    (UpdateRule db e idU recU).2.rules = queryRules (UpdateRule db e idU recU).1 ∧
    (DeleteRule db e idD).2.rules = queryRules (DeleteRule db e idD).1 ∧
    ((∀ rec' ∈ (ToggleRule db e id).1, rec'.enabled = true → rec'.typ = t →
        ∀ b ∈ rec'.rules, b.payload ≠ p) →
      Rule.mk t p ∉ filterRulesByType (ToggleRule db e id).2 t) := by
  refine ⟨rfl, rfl, rfl, rfl, ?_⟩
  intro habs hmem
  rw [filterRulesByType, List.mem_filter] at hmem
  have hq : Rule.mk t p ∈ queryRules (ToggleRule db e id).1 := hmem.1
  rw [queryRules, List.mem_flatMap] at hq
  obtain ⟨rec', hrec', hmap⟩ := hq
  rw [List.mem_map] at hmap
  obtain ⟨b, hb, heq⟩ := hmap
  rw [List.mem_filter] at hrec'
  have h1 : rec'.typ = t := congrArg Rule.typ heq
  have h2 : b.payload = p := congrArg Rule.payload heq
  exact habs rec' hrec'.1 (by simpa using hrec'.2) h1 b hb h2

/-- Witness for C7: toggling the single enabled record disables it, and its
rule is gone from the snapshot used on the next event. -/
theorem c7_rule_mutations_reload_witness :
    Rule.mk "new" "p0" ∉
      filterRulesByType
        (ToggleRule [⟨1, "r", "", "new", [⟨"", "p0"⟩], true⟩] ⟨[⟨"new", "p0"⟩]⟩ 1).2 "new" := by
  exact (c7_rule_mutations_reload [⟨1, "r", "", "new", [⟨"", "p0"⟩], true⟩] ⟨[⟨"new", "p0"⟩]⟩
    1 1 1 ⟨2, "", "", "new", [], false⟩ ⟨2, "", "", "new", [], false⟩ "new" "p0").2.2.2.2
    (by decide)

/-! ### C1: the rendered content never reaches Send -/

/-- An environment whose template render visibly wraps the content. -/
def c1Env : Env :=
  { stdEnv with render := fun c => some ("[tpl]" ++ c ++ "[/tpl]") }

def c1Msg : Message :=
  { baseMessage with
    id := 7
    uuid := "msg-7"
    conversationID := 1
    conversationUUID := "conv-1"
    content := "hello"
    inboxID := 1 }

def c1Manager : Manager :=
  { baseManager with store := { emptyStore with messages := [c1Msg], nextMessageID := 8 } }

def c1AfterScan : Manager :=
  { c1Manager with outgoingProcessingMessages := [7], outgoingMessageQueue := [c1Msg] }

/-- C1: evaluated at a concrete pending email message, the scan renders the
content through the template but enqueues the original message unchanged
(RenderContentInTemplate mutates a by-value copy), and the content handed
to the channel Send is the unrendered body, not the template output. -/
theorem c1_rendered_content_discarded :
    scanTick c1Env c1Manager = .done c1AfterScan ∧
    c1AfterScan.outgoingMessageQueue.map Message.content = ["hello"] ∧
    (MessageDispatchWorkerStep c1Env c1AfterScan c1Msg).sent.map Message.content =
      some "hello" ∧
    c1Env.render "hello" = some "[tpl]hello[/tpl]" ∧
    some "hello" ≠ (c1Env.render "hello") := by
  refine ⟨by decide, by decide, by decide, by decide, by decide⟩

/-! ### C5: a full outgoing queue blocks the scanner -/

def c5Msg : Message :=
  { baseMessage with id := 2, uuid := "msg-2", content := "hi", inboxID := 1 }

def c5Manager : Manager :=
  { baseManager with
    store := { emptyStore with messages := [c5Msg], nextMessageID := 3 }
    outgoingMessageQueue := [{ baseMessage with id := 1, uuid := "msg-1" }]
    outgoingCap := 1 }

def c5Blocked : Manager :=
  { c5Manager with outgoingProcessingMessages := [2] }

/-- Counterexample to C5: on a tick whose outgoing queue is full, the
scanner suspends in the blocking channel send instead of completing the
tick, with the candidate's id already left in the in-flight set. -/
theorem c5_full_queue_scanner_blocks :
    scanTick stdEnv c5Manager = .blocked c5Blocked c5Msg [] ∧
    c5Msg.id ∈ c5Blocked.outgoingProcessingMessages ∧
    c5Manager.outgoingCap ≤ c5Manager.outgoingMessageQueue.length := by
  refine ⟨by decide, by decide, by decide⟩

/-- C5 (amended): when the outgoing queue is full, the scanner blocks on
the enqueue of the first dispatchable candidate; its id is recorded in the
in-flight set, but the store is untouched (the message keeps its pending
status), the queue does not grow beyond its bound, and the remaining
candidates are unscanned. -/
theorem c5_full_queue_block_preserves_pending (env : Env) (m : Manager) (message : Message)
    (rest : List Message) (inb : Inbox) (r : String)
    (hfull : m.outgoingCap ≤ m.outgoingMessageQueue.length)
    (hinb : env.inboxes message.inboxID = some inb)
    (hch : inb.channel = ChannelEmail)
    (hr : env.render message.content = some r) :
    scanStep env m (message :: rest) =
      .blocked { m with
        outgoingProcessingMessages := m.outgoingProcessingMessages ++ [message.id] }
        message rest := by
  have hRC : RenderContentInTemplate env m.store inb message = (m.store, Except.ok ()) := by
    unfold RenderContentInTemplate
    rw [hch, hr]
    simp
  rw [scanStep, hinb]
  dsimp only
  rw [hRC]
  dsimp only
  have hnotlt : ¬ m.outgoingMessageQueue.length < m.outgoingCap := by omega
  rw [if_neg hnotlt]

/-- Witness for C5 (amended) at the concrete full-queue manager. -/
theorem c5_full_queue_block_preserves_pending_witness :
    scanStep stdEnv c5Manager (c5Msg :: []) =
      .blocked { c5Manager with
        outgoingProcessingMessages := c5Manager.outgoingProcessingMessages ++ [c5Msg.id] }
        c5Msg [] :=
  c5_full_queue_block_preserves_pending stdEnv c5Manager c5Msg [] stdInbox "hi"
    (by decide) rfl rfl rfl

/-! ### C4: dispatch failure handling -/

def c4Env : Env := { stdEnv with sendOk := fun _ => false }

def c4Msg : Message :=
  { baseMessage with
    id := 3
    uuid := "msg-3"
    conversationID := 1
    conversationUUID := "conv-1"
    content := "x"
    inboxID := 1 }

def c4Manager : Manager :=
  { baseManager with
    store := { emptyStore with messages := [c4Msg], nextMessageID := 4 }
    outgoingProcessingMessages := [3] }

/-- Counterexample to C4: at a concrete message whose channel Send fails,
the status becomes failed and the in-flight entry is removed, but the
message does not reappear in the next scan's candidate set (the scan
selects pending messages and this one is now failed). -/
theorem c4_failed_message_not_in_next_scan :
    ((MessageDispatchWorkerStep c4Env c4Manager c4Msg).manager.store.messages.map
        Message.status) = [MessageStatusFailed] ∧
    (MessageDispatchWorkerStep c4Env c4Manager c4Msg).manager.outgoingProcessingMessages
      = [] ∧
    scanCandidates (MessageDispatchWorkerStep c4Env c4Manager c4Msg).manager = [] := by
  refine ⟨by decide, by decide, by decide⟩

/-- Every stored message carrying the updated UUID carries the new status
after UpdateMessageStatus. -/
theorem mem_updateMessageStatus (st : Store) (uuid status : String) :
    ∀ mm ∈ (UpdateMessageStatus st uuid status).messages, mm.uuid = uuid →
      mm.status = status := by
  intro mm hmm huuid
  rw [UpdateMessageStatus] at hmm
  simp only [List.mem_map] at hmm
  obtain ⟨orig, horig, rfl⟩ := hmm
  by_cases h : orig.uuid = uuid
  · simp [h]
  · simp only [if_neg h] at huuid ⊢
    exact absurd huuid h

/-- The dispatch worker removes the in-flight entry on every path. -/
theorem dispatch_removes_inflight (env : Env) (m : Manager) (message : Message) :
    (MessageDispatchWorkerStep env m message).manager.outgoingProcessingMessages =
      m.outgoingProcessingMessages.filter (· ≠ message.id) := by
  rw [MessageDispatchWorkerStep]
  cases env.inboxes message.inboxID with
  | none => rfl
  | some inb =>
    cases env.getAttachments message.id with
    | error e => rfl
    | ok atts => rfl

/-- Stamping the first-reply timestamp does not touch messages. -/
theorem firstReplyAt_messages (st : Store) (u : String) (t : Nat) :
    (UpdateConversationFirstReplyAt st u t).messages = st.messages := rfl

/-- C4 (amended): a failure of inbox fetch, attachment fetch, or the
channel Send marks the message failed; in every case the message id is
deleted from the in-flight set, so that once a retry resets the message to
pending it reappears in the next scan's candidate set. -/
theorem c4_dispatch_failure_and_inflight (env : Env) (m : Manager) (message : Message) :
    (env.inboxes message.inboxID = none →
      ∀ mm ∈ (MessageDispatchWorkerStep env m message).manager.store.messages,
        mm.uuid = message.uuid → mm.status = MessageStatusFailed) ∧
    (∀ inb e, env.inboxes message.inboxID = some inb →
      env.getAttachments message.id = .error e →
      ∀ mm ∈ (MessageDispatchWorkerStep env m message).manager.store.messages,
        mm.uuid = message.uuid → mm.status = MessageStatusFailed) ∧
    (∀ inb atts, env.inboxes message.inboxID = some inb →
      env.getAttachments message.id = .ok atts →
      env.sendOk (dispatchEnriched env inb atts message) = false →
      ∀ mm ∈ (MessageDispatchWorkerStep env m message).manager.store.messages,
        mm.uuid = message.uuid → mm.status = MessageStatusFailed) ∧
    message.id ∉ (MessageDispatchWorkerStep env m message).manager.outgoingProcessingMessages ∧
    (∀ mm ∈ (MarkMessageAsPending
        (MessageDispatchWorkerStep env m message).manager.store message.uuid).messages,
      mm.uuid = message.uuid → mm.typ = MessageOutgoing → mm.id = message.id →
      mm ∈ scanCandidates { (MessageDispatchWorkerStep env m message).manager with
        store := MarkMessageAsPending
          (MessageDispatchWorkerStep env m message).manager.store message.uuid }) := by
  refine ⟨?_, ?_, ?_, ?_, ?_⟩
  · intro hnone mm hmm huuid
    rw [MessageDispatchWorkerStep, hnone] at hmm
    exact mem_updateMessageStatus _ _ _ mm hmm huuid
  · intro inb e hinb hatt mm hmm huuid
    rw [MessageDispatchWorkerStep, hinb, hatt] at hmm
    exact mem_updateMessageStatus _ _ _ mm hmm huuid
  · intro inb atts hinb hatt hsend mm hmm huuid
    rw [MessageDispatchWorkerStep, hinb, hatt] at hmm
    dsimp only at hmm
    rw [hsend] at hmm
    have hred : mm ∈ (UpdateMessageStatus m.store
        (dispatchEnriched env inb atts message).uuid MessageStatusFailed).messages := by
      simpa using hmm
    exact mem_updateMessageStatus _ _ _ mm hred huuid
  · rw [dispatch_removes_inflight]
    simp [List.mem_filter]
  · intro mm hmm huuid htyp hid
    have hstatus : mm.status = MessageStatusPending :=
      mem_updateMessageStatus _ _ _ mm hmm huuid
    rw [scanCandidates, List.mem_filter]
    refine ⟨hmm, ?_⟩
    simp only [htyp, hstatus, hid, dispatch_removes_inflight]
    simp [List.mem_filter]

/-- Witness for C4 (amended): Send fails at the concrete input; the stored
message is marked failed, the in-flight entry is gone, and after a
mark-pending retry the stored message is a scan candidate again. -/
theorem c4_dispatch_failure_and_inflight_witness :
    ((MessageDispatchWorkerStep c4Env c4Manager c4Msg).manager.store.messages.map
        Message.status = [MessageStatusFailed]) ∧
    c4Msg.id ∉ (MessageDispatchWorkerStep c4Env c4Manager c4Msg).manager.outgoingProcessingMessages ∧
    { c4Msg with status := MessageStatusPending } ∈
      scanCandidates { (MessageDispatchWorkerStep c4Env c4Manager c4Msg).manager with
        store := MarkMessageAsPending
          (MessageDispatchWorkerStep c4Env c4Manager c4Msg).manager.store c4Msg.uuid } := by
  have h := c4_dispatch_failure_and_inflight c4Env c4Manager c4Msg
  have h3 := h.2.2.1 stdInbox [] rfl rfl rfl
  refine ⟨?_, h.2.2.2.1, ?_⟩
  · have := h3 { c4Msg with status := MessageStatusFailed } (by decide) (by decide)
    decide
  · exact h.2.2.2.2 { c4Msg with status := MessageStatusPending } (by decide) (by decide)
      (by decide) (by decide)

/-! ### Shared lemmas on findOrCreateConversation and InsertMessage -/

/-- The chain searched by findOrCreateConversation, in appended form. -/
theorem foc_chain (msg : Message) :
    (if msg.inReplyTo ≠ "" then msg.references ++ [msg.inReplyTo] else msg.references) =
      msg.references ++ (if msg.inReplyTo ≠ "" then [msg.inReplyTo] else []) := by
  split <;> simp

/-- When the chain matches a conversation, findOrCreateConversation attaches
the message to it and leaves the store unchanged. -/
theorem findOrCreateConversation_attach (sanitize : String → String) (st : Store)
    (msg : Message) (inboxID contactID : Nat) (cid : Nat) (u : String)
    (hfind : findConversationID st
      (msg.references ++ (if msg.inReplyTo ≠ "" then [msg.inReplyTo] else [])) = .ok cid)
    (hcid : cid ≠ 0) (huuid : GetConversationUUID st cid = .ok u) :
    findOrCreateConversation sanitize st msg inboxID contactID =
      .ok (false, { msg with conversationID := cid, conversationUUID := u }, st) := by
  rw [findOrCreateConversation, foc_chain, hfind]
  dsimp only
  rw [if_neg hcid, huuid]

/-- When the chain matches nothing, findOrCreateConversation creates a new
conversation with seeded meta and attaches the message to it. -/
theorem findOrCreateConversation_create (sanitize : String → String) (st : Store)
    (msg : Message) (inboxID contactID : Nat)
    (hfind : findConversationID st
      (msg.references ++ (if msg.inReplyTo ≠ "" then [msg.inReplyTo] else [])) =
        .error .conversationNotFound) :
    findOrCreateConversation sanitize st msg inboxID contactID =
      .ok (true,
        { msg with
          conversationID := st.nextConversationID
          conversationUUID := "conv-" ++ toString st.nextConversationID },
        (CreateConversation st contactID inboxID msg.subject
          (SanitizeAndTruncate sanitize msg.content maxLastMessageLen)).2.2) := by
  rw [findOrCreateConversation, foc_chain, hfind]
  dsimp only
  rw [if_pos rfl]
  rfl

/-- The message returned by InsertMessage keeps the caller's conversation
reference, content and source id, and is stamped with the store clock. -/
theorem insertMessage_message_fields (sanitize : String → String) (st : Store)
    (message : Message) :
    (InsertMessage sanitize st message).2.conversationUUID = message.conversationUUID ∧
    (InsertMessage sanitize st message).2.content = message.content ∧
    (InsertMessage sanitize st message).2.createdAt = st.now ∧
    (InsertMessage sanitize st message).2.sourceID = message.sourceID ∧
    (InsertMessage sanitize st message).2.conversationID = message.conversationID := by
  unfold InsertMessage
  dsimp only
  split <;> split <;> exact ⟨rfl, rfl, rfl, rfl, rfl⟩

/-- InsertMessage appends exactly the returned message to storage. -/
theorem insertMessage_messages (sanitize : String → String) (st : Store) (message : Message) :
    (InsertMessage sanitize st message).1.messages =
      st.messages ++ [(InsertMessage sanitize st message).2] := by
  unfold InsertMessage UpdateConversationLastMessage
  rfl

/-- The conversations after InsertMessage are those of the conversation
last-message update keyed by the caller's fields. -/
theorem insertMessage_conversations (sanitize : String → String) (st : Store)
    (message : Message) :
    (InsertMessage sanitize st message).1.conversations =
      (UpdateConversationLastMessage st message.conversationUUID
        (SanitizeAndTruncate sanitize message.content 45) st.now).conversations := by
  unfold InsertMessage UpdateConversationLastMessage
  dsimp only
  split <;> split <;> rfl

/-- Every conversation carrying the updated UUID carries the new summary
after UpdateConversationLastMessage. -/
theorem mem_updateConversationLastMessage (st : Store) (u tm : String) (t : Nat) :
    ∀ c ∈ (UpdateConversationLastMessage st u tm t).conversations, c.uuid = u →
      c.lastMessage = tm ∧ c.lastMessageAt = t := by
  intro c hc huuid
  rw [UpdateConversationLastMessage] at hc
  simp only [List.mem_map] at hc
  obtain ⟨orig, horig, rfl⟩ := hc
  by_cases h : orig.uuid = u
  · simp [h]
  · simp only [if_neg h] at huuid ⊢
    exact absurd huuid h

/-- The truncated summary is at most maxLen characters long. -/
theorem sanitizeAndTruncate_length (sanitize : String → String) (s : String) (n : Nat) :
    (SanitizeAndTruncate sanitize s n).length ≤ n := by
  simp only [SanitizeAndTruncate, String.length, List.length_take]
  omega

/-! ### C3: thread resolution -/

def c3Stored : Message :=
  { baseMessage with
    id := 1
    uuid := "msg-1"
    typ := MessageIncoming
    status := MessageStatusReceived
    conversationID := 1
    conversationUUID := "conv-1"
    sourceID := "s1" }

def c3Conv : Conversation :=
  { id := 1, uuid := "conv-1", contactID := 1, inboxID := 1, subject := "",
    lastMessage := "", lastMessageAt := 0, firstReplyAt := none }

def c3St : Store :=
  { messages := [c3Stored], conversations := [c3Conv], nextMessageID := 2,
    nextConversationID := 2, now := 5 }

def c3In : Message :=
  { baseMessage with
    typ := MessageIncoming
    status := MessageStatusReceived
    content := "reply"
    sourceID := "s1" }

/-- Counterexample to C3: a message whose own source-id matches an existing
conversation's prior message, with empty References and in-reply-to, is NOT
attached: findOrCreateConversation searches only References plus
in-reply-to, so it creates a new conversation here. -/
theorem c3_own_sourceid_not_searched :
    findConversationID c3St [c3In.sourceID] = .ok 1 ∧
    (findOrCreateConversation (fun s => s) c3St c3In 1 1).toOption.map
      (fun r => r.1) = some true ∧
    (findOrCreateConversation (fun s => s) c3St c3In 1 1).toOption.map
      (fun r => r.2.2.conversations.length) = some 2 := by
  refine ⟨by decide, by decide, by decide⟩

/-- C3 (amended): the chain searched is the message's reference ids plus
any in-reply-to id; a match attaches the message to the found conversation
(setting its conversation id and UUID), and a new conversation is created
only when no match exists. -/
theorem c3_thread_resolution (sanitize : String → String) (st : Store) (msg : Message)
    (inboxID contactID : Nat) :
    (∀ cid u, findConversationID st
        (msg.references ++ (if msg.inReplyTo ≠ "" then [msg.inReplyTo] else [])) = .ok cid →
      cid ≠ 0 → GetConversationUUID st cid = .ok u →
      findOrCreateConversation sanitize st msg inboxID contactID =
        .ok (false, { msg with conversationID := cid, conversationUUID := u }, st)) ∧
    (findConversationID st
        (msg.references ++ (if msg.inReplyTo ≠ "" then [msg.inReplyTo] else [])) =
          .error .conversationNotFound →
      findOrCreateConversation sanitize st msg inboxID contactID =
        .ok (true,
          { msg with
            conversationID := st.nextConversationID
            conversationUUID := "conv-" ++ toString st.nextConversationID },
          (CreateConversation st contactID inboxID msg.subject
            (SanitizeAndTruncate sanitize msg.content maxLastMessageLen)).2.2)) := by
  exact ⟨fun cid u hfind hcid huuid =>
    findOrCreateConversation_attach sanitize st msg inboxID contactID cid u hfind hcid huuid,
    fun hfind => findOrCreateConversation_create sanitize st msg inboxID contactID hfind⟩

/-- Witness for C3 (amended): an in-reply-to id matching the stored
message attaches to conversation 1; a message with no matching id creates
conversation 2. -/
theorem c3_thread_resolution_witness :
    (findOrCreateConversation (fun s => s) c3St { c3In with inReplyTo := "s1" } 1 1 =
      .ok (false,
        { c3In with inReplyTo := "s1", conversationID := 1, conversationUUID := "conv-1" },
        c3St)) ∧
    (findOrCreateConversation (fun s => s) c3St c3In 1 1 =
      .ok (true,
        { c3In with conversationID := 2, conversationUUID := "conv-2" },
        (CreateConversation c3St 1 1 c3In.subject
          (SanitizeAndTruncate (fun s => s) c3In.content maxLastMessageLen)).2.2)) := by
  constructor
  · exact (c3_thread_resolution (fun s => s) c3St { c3In with inReplyTo := "s1" } 1 1).1
      1 "conv-1" (by decide) (by decide) (by decide)
  · exact (c3_thread_resolution (fun s => s) c3St c3In 1 1).2 (by decide)

/-! ### C8: the last-message summary -/

/-- Updating a message status leaves conversations untouched. -/
theorem updateMessageStatus_conversations (st : Store) (u s : String) :
    (UpdateMessageStatus st u s).conversations = st.conversations := rfl

/-- Stamping the first-reply timestamp does not change any conversation's
summary fields. -/
theorem firstReplyAt_summary_map (st : Store) (u : String) (t : Nat) :
    (UpdateConversationFirstReplyAt st u t).conversations.map
      (fun c => (c.uuid, c.lastMessage, c.lastMessageAt)) =
    st.conversations.map (fun c => (c.uuid, c.lastMessage, c.lastMessageAt)) := by
  rw [UpdateConversationFirstReplyAt]
  dsimp only
  generalize st.conversations = l
  induction l with
  | nil => rfl
  | cons c cs ih =>
    dsimp only [List.map]
    rw [ih]
    congr 1
    split <;> rfl

/-- C8: after every insertion the owning conversation's summary is the
sanitized content truncated to at most 45 characters together with the
inserted message's created timestamp; creating a conversation seeds the
same summary; and dispatching (sending) a message never changes any
conversation's summary. -/
theorem c8_last_message_summary (sanitize : String → String) (st : Store) (message : Message)
    (env : Env) (mgr : Manager) (dmsg : Message) (inboxID contactID : Nat) :
    (∀ c ∈ (InsertMessage sanitize st message).1.conversations,
        c.uuid = message.conversationUUID →
        c.lastMessage = SanitizeAndTruncate sanitize message.content 45 ∧
        c.lastMessage.length ≤ 45 ∧
        c.lastMessageAt = (InsertMessage sanitize st message).2.createdAt) ∧
    (findConversationID st (message.references ++
        (if message.inReplyTo ≠ "" then [message.inReplyTo] else [])) =
          .error .conversationNotFound →
      (findOrCreateConversation sanitize st message inboxID contactID).toOption.map
          (fun r => r.2.2.conversations) =
        some (st.conversations ++
          [{ id := st.nextConversationID
             uuid := "conv-" ++ toString st.nextConversationID
             contactID := contactID
             inboxID := inboxID
             subject := message.subject
             lastMessage := SanitizeAndTruncate sanitize message.content maxLastMessageLen
             lastMessageAt := st.now
             firstReplyAt := none }])) ∧
    (∀ s n, (SanitizeAndTruncate sanitize s n).length ≤ n) ∧
    ((MessageDispatchWorkerStep env mgr dmsg).manager.store.conversations.map
        (fun c => (c.uuid, c.lastMessage, c.lastMessageAt)) =
      mgr.store.conversations.map (fun c => (c.uuid, c.lastMessage, c.lastMessageAt))) := by
  refine ⟨?_, ?_, fun s n => sanitizeAndTruncate_length sanitize s n, ?_⟩
  · intro c hc huuid
    rw [insertMessage_conversations] at hc
    have h := mem_updateConversationLastMessage _ _ _ _ c hc huuid
    refine ⟨h.1, ?_, ?_⟩
    · rw [h.1]
      exact sanitizeAndTruncate_length sanitize message.content 45
    · rw [h.2, (insertMessage_message_fields sanitize st message).2.2.1]
  · intro hfind
    rw [findOrCreateConversation_create sanitize st message inboxID contactID hfind]
    rfl
  · rw [MessageDispatchWorkerStep]
    cases env.inboxes dmsg.inboxID with
    | none => rfl
    | some inb =>
      cases env.getAttachments dmsg.id with
      | error e => rfl
      | ok atts =>
        dsimp only
        split
        · rw [if_pos rfl, firstReplyAt_summary_map, updateMessageStatus_conversations]
        · rw [if_neg (by decide : ¬ (MessageStatusFailed = MessageStatusSent)),
            updateMessageStatus_conversations]

/-- Witness for C8: inserting a 50-character message into a concrete
conversation leaves a 45-character summary stamped with the insert time;
the seeded meta of a fresh conversation matches. -/
theorem c8_last_message_summary_witness :
    (∀ c ∈ (InsertMessage (fun s => s)
        { emptyStore with conversations := [c3Conv], now := 9 }
        { baseMessage with
          conversationUUID := "conv-1"
          content := "01234567890123456789012345678901234567890123456789" }).1.conversations,
      c.uuid = "conv-1" →
      c.lastMessage = "012345678901234567890123456789012345678901234" ∧
      c.lastMessageAt = 9) ∧
    (findOrCreateConversation (fun s => s) emptyStore
        { baseMessage with content := "hi", subject := "Help" } 1 1).toOption.map
      (fun r => r.2.2.conversations) =
        some [{ id := 1, uuid := "conv-1", contactID := 1, inboxID := 1, subject := "Help",
                lastMessage := "hi", lastMessageAt := 0, firstReplyAt := none }] := by
  have h := c8_last_message_summary (fun s => s)
    { emptyStore with conversations := [c3Conv], now := 9 }
    { baseMessage with
      conversationUUID := "conv-1"
      content := "01234567890123456789012345678901234567890123456789" }
    stdEnv baseManager baseMessage 1 1
  have h2 := c8_last_message_summary (fun s => s) emptyStore
    { baseMessage with content := "hi", subject := "Help" } stdEnv baseManager baseMessage 1 1
  constructor
  · intro c hc huuid
    have := h.1 c hc huuid
    exact ⟨this.1, this.2.2⟩
  · have := h2.2.1 (by decide)
    rw [this]
    rfl

/-! ### C2: idempotence of incoming processing -/

/-- The automation trigger enqueue never touches the manager's store. -/
theorem evalNewConversationRules_store (m : Manager) (u : String) :
    (EvaluateNewConversationRules m u).store = m.store := by
  rw [EvaluateNewConversationRules]
  split <;> rfl

/-- A not-found lookup means no stored message matches any of the ids. -/
theorem findConversationID_error_find (st : Store) (ids : List String)
    (h : findConversationID st ids = .error .conversationNotFound)
    (hne : ¬ ids.length = 0) :
    st.messages.find? (fun m => m.sourceID ≠ "" && ids.contains m.sourceID) = none := by
  rw [findConversationID, if_neg hne] at h
  revert h
  cases hf : st.messages.find? (fun m => m.sourceID ≠ "" && ids.contains m.sourceID) with
  | none => intro _; rfl
  | some mm => intro h; cases h

/-- A duplicate delivery — a conversation already matches the message's own
source id — is discarded silently: nil result, manager unchanged. -/
theorem processIncomingMessage_duplicate (env : Env) (sanitize : String → String)
    (m : Manager) (inMsg : IncomingMessage) (senderID cid : Nat)
    (hup : env.upsertContact inMsg.contact = some senderID)
    (hfind : findConversationID m.store [inMsg.message.sourceID] = .ok cid)
    (hpos : 0 < cid) :
    processIncomingMessage env sanitize m inMsg = (m, .ok ()) := by
  rw [processIncomingMessage, hup]
  dsimp only
  rw [hfind]
  dsimp only
  rw [if_pos hpos]

/-- When neither the source id nor the reference chain matches, processing
creates a conversation, inserts the message, and fires the trigger. -/
theorem processIncomingMessage_insert (env : Env) (sanitize : String → String)
    (m : Manager) (inMsg : IncomingMessage) (senderID : Nat)
    (hup : env.upsertContact inMsg.contact = some senderID)
    (hdup : findConversationID m.store [inMsg.message.sourceID] =
      .error .conversationNotFound)
    (hchain : findConversationID m.store (inMsg.message.references ++
      (if inMsg.message.inReplyTo ≠ "" then [inMsg.message.inReplyTo] else [])) =
        .error .conversationNotFound) :
    processIncomingMessage env sanitize m inMsg =
      (EvaluateNewConversationRules
        { m with store := (InsertMessage sanitize
            (CreateConversation m.store senderID inMsg.inboxID inMsg.message.subject
              (SanitizeAndTruncate sanitize inMsg.message.content maxLastMessageLen)).2.2
            { inMsg.message with
              senderID := senderID
              conversationID := m.store.nextConversationID
              conversationUUID := "conv-" ++ toString m.store.nextConversationID }).1 }
        (InsertMessage sanitize
            (CreateConversation m.store senderID inMsg.inboxID inMsg.message.subject
              (SanitizeAndTruncate sanitize inMsg.message.content maxLastMessageLen)).2.2
            { inMsg.message with
              senderID := senderID
              conversationID := m.store.nextConversationID
              conversationUUID := "conv-" ++ toString m.store.nextConversationID
              }).2.conversationUUID,
        .ok ()) := by
  rw [processIncomingMessage, hup]
  dsimp only
  rw [hdup]
  dsimp only
  rw [if_neg (by decide : ¬ ((0 : Nat) > 0))]
  rw [findOrCreateConversation_create sanitize m.store
    { inMsg.message with senderID := senderID } inMsg.inboxID senderID hchain]
  dsimp only
  rw [if_pos rfl]

/-- C2: a duplicate source-id delivery is discarded silently with the
manager unchanged, and processing the same incoming message twice yields
exactly one new stored message and one new conversation (the second call
returns nil and changes nothing). -/
theorem c2_incoming_idempotent (env : Env) (sanitize : String → String) (m : Manager)
    (inMsg : IncomingMessage) (senderID cid : Nat)
    (hup : env.upsertContact inMsg.contact = some senderID) :
    (findConversationID m.store [inMsg.message.sourceID] = .ok cid → 0 < cid →
      processIncomingMessage env sanitize m inMsg = (m, .ok ())) ∧
    (findConversationID m.store [inMsg.message.sourceID] = .error .conversationNotFound →
      findConversationID m.store (inMsg.message.references ++
        (if inMsg.message.inReplyTo ≠ "" then [inMsg.message.inReplyTo] else [])) =
          .error .conversationNotFound →
      ¬ inMsg.message.sourceID = "" →
      0 < m.store.nextConversationID →
      (processIncomingMessage env sanitize m inMsg).2 = .ok () ∧
      (processIncomingMessage env sanitize m inMsg).1.store.messages.length =
        m.store.messages.length + 1 ∧
      (processIncomingMessage env sanitize m inMsg).1.store.conversations.length =
        m.store.conversations.length + 1 ∧
      processIncomingMessage env sanitize
          (processIncomingMessage env sanitize m inMsg).1 inMsg =
        ((processIncomingMessage env sanitize m inMsg).1, .ok ())) := by
  constructor
  · intro hfind hpos
    exact processIncomingMessage_duplicate env sanitize m inMsg senderID cid hup hfind hpos
  · intro hdup hchain hsrc hnext
    have hstep := processIncomingMessage_insert env sanitize m inMsg senderID hup hdup hchain
    set st2 := (CreateConversation m.store senderID inMsg.inboxID inMsg.message.subject
      (SanitizeAndTruncate sanitize inMsg.message.content maxLastMessageLen)).2.2 with hst2
    set msg2 : Message :=
      { inMsg.message with
        senderID := senderID
        conversationID := m.store.nextConversationID
        conversationUUID := "conv-" ++ toString m.store.nextConversationID } with hmsg2
    have hstore : (processIncomingMessage env sanitize m inMsg).1.store =
        (InsertMessage sanitize st2 msg2).1 := by
      rw [hstep]
      exact evalNewConversationRules_store _ _
    have hmessages : (InsertMessage sanitize st2 msg2).1.messages =
        m.store.messages ++ [(InsertMessage sanitize st2 msg2).2] := by
      rw [insertMessage_messages]
      rfl
    have hsrc3 : (InsertMessage sanitize st2 msg2).2.sourceID = inMsg.message.sourceID :=
      (insertMessage_message_fields sanitize st2 msg2).2.2.2.1
    have hcid3 : (InsertMessage sanitize st2 msg2).2.conversationID =
        m.store.nextConversationID :=
      (insertMessage_message_fields sanitize st2 msg2).2.2.2.2
    have hfind2 : findConversationID (InsertMessage sanitize st2 msg2).1
        [inMsg.message.sourceID] = .ok m.store.nextConversationID := by
      rw [findConversationID, if_neg (by simp)]
      rw [hmessages, List.find?_append,
        findConversationID_error_find m.store [inMsg.message.sourceID] hdup (by simp)]
      simp [List.find?, hsrc3, hsrc, hcid3]
    refine ⟨?_, ?_, ?_, ?_⟩
    · rw [hstep]
    · rw [hstore, hmessages]
      simp
    · rw [hstore, insertMessage_conversations]
      simp [UpdateConversationLastMessage, hst2, CreateConversation]
    · have hm1 : findConversationID (processIncomingMessage env sanitize m inMsg).1.store
          [inMsg.message.sourceID] = .ok m.store.nextConversationID := by
        rw [hstore]
        exact hfind2
      exact processIncomingMessage_duplicate env sanitize
        (processIncomingMessage env sanitize m inMsg).1 inMsg senderID
        m.store.nextConversationID hup hm1 hnext

/-- Witness for C2: a concrete message processed twice from an empty store
leaves exactly one message and one conversation; the second call is a
silent no-op. -/
theorem c2_incoming_idempotent_witness :
    ((processIncomingMessage stdEnv (fun s => s) baseManager
        ⟨⟨"a"⟩, { baseMessage with sourceID := "s9", content := "hello" }, 1⟩).1.store.messages.length = 1) ∧
    ((processIncomingMessage stdEnv (fun s => s) baseManager
        ⟨⟨"a"⟩, { baseMessage with sourceID := "s9", content := "hello" }, 1⟩).1.store.conversations.length = 1) ∧
    (processIncomingMessage stdEnv (fun s => s)
        (processIncomingMessage stdEnv (fun s => s) baseManager
          ⟨⟨"a"⟩, { baseMessage with sourceID := "s9", content := "hello" }, 1⟩).1
        ⟨⟨"a"⟩, { baseMessage with sourceID := "s9", content := "hello" }, 1⟩ =
      ((processIncomingMessage stdEnv (fun s => s) baseManager
          ⟨⟨"a"⟩, { baseMessage with sourceID := "s9", content := "hello" }, 1⟩).1, .ok ())) := by
  have h := (c2_incoming_idempotent stdEnv (fun s => s) baseManager
    ⟨⟨"a"⟩, { baseMessage with sourceID := "s9", content := "hello" }, 1⟩ 1 1 rfl).2
    (by decide) (by decide) (by decide) (by decide)
  exact ⟨h.2.1, h.2.2.1, h.2.2.2⟩

end Libredesk
